import Mathlib

set_option synthInstance.maxSize 1024

/-!
Shallow embedding of the BestBuddy multilingual-assistant core
(`src/bestbuddy/nlp_model.py` and `src/bestbuddy/assistant.py`).

External collaborators (the langdetect classifier, the HF translation and
generation pipelines, `webbrowser.open`, the clock, and the success or
failure of file-system reads and writes) are modelled as fields of an
explicit environment `Env`; a call that the Python code wraps in
`try/except` is modelled as an `Except Unit` value supplied by the
environment.  The two JSON memory documents (`memory.json` written by
`VoiceAssistant._append_memory` and `nlp_memory.json` written by
`MultilingualNLP._append_history`) are modelled by the record `FS`;
every successful file write is additionally recorded as a `WriteEvent`
(path and the full `history` payload written), so frame properties about
persistence can be stated.  A Python exception that no `except` catches
is modelled as `Except.error ()` of the embedded function.
-/

namespace BestBuddy

/-- Python whitespace codepoints, as used by `str.split()` and `str.strip()`
(ASCII whitespace, the C1 separators, and the Unicode space characters). -/
def pySpaceCodes : List Nat :=
  [0x9, 0xA, 0xB, 0xC, 0xD, 0x1C, 0x1D, 0x1E, 0x1F, 0x20,
   0x85, 0xA0, 0x1680, 0x2028, 0x2029, 0x202F, 0x205F, 0x3000]

/-- Whether a character counts as whitespace for Python `str.strip` / `str.split`. -/
def isPySpace (c : Char) : Bool :=
  decide (c.toNat ∈ pySpaceCodes) || decide (0x2000 ≤ c.toNat ∧ c.toNat ≤ 0x200A)

/-- Whether a character lies in the Devanagari block, the test
`"ऀ" <= ch <= "ॿ"` of `detect_language`. -/
def isDevanagari (c : Char) : Bool :=
  decide (0x900 ≤ c.toNat ∧ c.toNat ≤ 0x97F)

/-- Python `any(... for ch in text)` over the Devanagari test. -/
def hasDevanagari (s : String) : Bool :=
  s.data.any isDevanagari

/-- Python `str.strip()` on the underlying character list: drop whitespace
from the front, then from the back. -/
def stripList (l : List Char) : List Char :=
  ((l.dropWhile isPySpace).reverse.dropWhile isPySpace).reverse

/-- Python `str.strip()`. -/
def pyStrip (s : String) : String :=
  ⟨stripList s.data⟩

/-- Python `str.lower()`.  The keyword lists of this program are ASCII and
Devanagari (which has no case), for which ASCII lowering is exact. -/
def pyLower (s : String) : String :=
  ⟨s.data.map Char.toLower⟩

/-- Accumulator-based tokenizer: split a character list on whitespace runs,
never producing empty tokens (`acc` holds the current token reversed). -/
def tokenSplit : List Char → List Char → List String
  | acc, [] => if acc.isEmpty then [] else [String.mk acc.reverse]
  | acc, c :: rest =>
    if isPySpace c then
      if acc.isEmpty then tokenSplit [] rest
      else String.mk acc.reverse :: tokenSplit [] rest
    else tokenSplit (c :: acc) rest

/-- Python `str.split()` with no argument: split on whitespace runs,
discarding empty fields. -/
def pyTokens (s : String) : List String :=
  tokenSplit [] s.data

/-- Python substring test `sub in s`. -/
def strContains (s sub : String) : Bool :=
  decide (sub.data <:+: s.data)

/-- Python slice `l[-k:]` for a positive literal `k`: the last `k` elements. -/
def pyTail (l : List α) (k : Nat) : List α :=
  l.drop (l.length - k)

/-- One record of a persisted `history` field:
`{"role": role, "text": text, "ts": int(time.time())}`. -/
structure Entry where
  role : String
  text : String
  ts : Nat
deriving DecidableEq

/-- The in-memory short history `self.history` of `MultilingualNLP`. -/
structure NlpState where
  history : List Entry
deriving DecidableEq

/-- Parsed contents of the two persisted JSON documents: the `history`
field of `memory.json` (assistant store) and of `nlp_memory.json`. -/
structure FS where
  mem : List Entry
  nlp : List Entry
deriving DecidableEq

/-- Path of the assistant's memory document `memory.json`. -/
def memPath : String := "memory.json"

/-- Path of the NLP model's memory document `nlp_memory.json`. -/
def nlpPath : String := "nlp_memory.json"

/-- A successful file write performed by the core: target path and the
full `history` sequence written (the document is overwritten wholesale). -/
abbrev WriteEvent := String × List Entry

/-- Result shape of a translation pipeline call, as inspected by
`translate_to_en` / `translate_from_en`: a non-empty list whose first
element may carry `translation_text`, an empty list, a dict that may
carry `translation_text`, or anything else. -/
inductive PipeOut where
  | listNE (first : Option String)
  | listEmpty
  | dictOut (field : Option String)
  | other
deriving DecidableEq

/-- Outcomes of every external collaborator the core calls during a turn.
`classifier` is `langdetect.detect` (error = `LangDetectException`);
`indicToEn` / `enToIndic` are the lazily loaded translation pipelines
(`none` = the load failed, so the attribute stays `None`); `generator`
is the loaded generation pipeline together with its per-call outcome,
already projected to the extracted text (`none` = both generation
backends failed to load); `memReadOk` / `memWriteOk` and `nlpReadOk` /
`nlpWriteOk` tell whether reading and writing the two JSON documents
succeeds; `webFails u` tells whether `webbrowser.open u` raises;
`now` is the formatted current time; `ts` is `int(time.time())`. -/
structure Env where
  classifier : String → Except Unit String
  indicToEn : Option (String → Except Unit PipeOut)
  enToIndic : Option (String → Except Unit PipeOut)
  generator : Option (String → Except Unit String)
  memReadOk : Bool
  memWriteOk : Bool
  nlpReadOk : Bool
  nlpWriteOk : Bool
  webFails : String → Bool
  now : String
  musicDirExists : Bool
  musicOpenFails : Bool
  ts : Nat

/-- `MultilingualNLP.detect_language`. -/
def detect_language (env : Env) (text : String) : String :=
  if text = "" ∨ pyStrip text = "" then "en"
  else
    match env.classifier text with
    | .ok code =>
      if code = "en" ∨ code = "hi" ∨ code = "mr" then code
      else if "hi".isPrefixOf code then "hi"
      else if "mr".isPrefixOf code then "mr"
      else if hasDevanagari text then "hi"
      else "en"
    | .error _ =>
      if hasDevanagari text then "hi" else "en"

/-- Extraction of `translation_text` from a pipeline result, with the
original text as fallback at every step. -/
def pipeExtract (out : PipeOut) (text : String) : String :=
  match out with
  | .listNE first => first.getD text
  | .listEmpty => text
  | .dictOut field => field.getD text
  | .other => text

/-- `MultilingualNLP.translate_to_en`. -/
def translate_to_en (env : Env) (text : String) (srcLang : String) : String :=
  if srcLang = "en" then text
  else
    match env.indicToEn with
    | none => text
    | some backend =>
      match backend text with
      | .ok out => pipeExtract out text
      | .error _ => text

/-- `MultilingualNLP.translate_from_en`. -/
def translate_from_en (env : Env) (text : String) (tgtLang : String) : String :=
  if tgtLang = "en" then text
  else
    match env.enToIndic with
    | none => text
    | some backend =>
      match backend text with
      | .ok out => pipeExtract out text
      | .error _ => text

/-- The degraded reply of `generate_answer` when no generation backend
loaded. -/
def noModelMsg : String :=
  "I\x27m unable to load the language model right now. Please try again later."

/-- The per-call failure reply of `generate_answer`. -/
def genFailMsg : String :=
  "I ran into a problem generating a response."

/-- `MultilingualNLP._append_history`: update the in-memory history (cap 6),
then read `nlp_memory.json` (read failure gives an empty history), append,
cap at 6, and write the document back.  The write can raise, which the
second component reports. -/
def append_history (env : Env) (st : NlpState) (fs : FS) (role text : String) :
    NlpState × Except Unit (FS × WriteEvent) :=
  let entry : Entry := ⟨role, text, env.ts⟩
  let st2 : NlpState := ⟨pyTail (st.history ++ [entry]) 6⟩
  let hist := if env.nlpReadOk then fs.nlp else []
  let hist2 := pyTail (hist ++ [entry]) 6
  (st2,
    if env.nlpWriteOk then .ok ({ fs with nlp := hist2 }, (nlpPath, hist2))
    else .error ())

/-- The context concatenation of `generate_answer`: prepend the text of
the last `SHORT_HISTORY_LIMIT // 2 = 3` turns when the in-memory history
is non-empty. -/
def contextual_prompt (st : NlpState) (prompt : String) : String :=
  if st.history.isEmpty then prompt
  else String.intercalate " " ((pyTail st.history 3).map Entry.text)
    ++ "\nUser: " ++ prompt

/-- `MultilingualNLP.generate_answer`.  The backend call and the extraction
of its `generated_text` field are the opaque `env.generator` function; the
whole body after the degraded-state check sits in one `try`, so a failure
of the backend call or of the history write is caught and converted to
`genFailMsg`. -/
def generate_answer (env : Env) (st : NlpState) (fs : FS) (prompt : String) :
    String × NlpState × FS × List WriteEvent :=
  match env.generator with
  | none => (noModelMsg, st, fs, [])
  | some gen =>
    match gen (contextual_prompt st prompt) with
    | .error _ => (genFailMsg, st, fs, [])
    | .ok raw =>
      match (append_history env st fs "assistant" (pyStrip raw)).2 with
      | .ok res =>
        (pyStrip raw, (append_history env st fs "assistant" (pyStrip raw)).1,
          res.1, [res.2])
      | .error _ =>
        (genFailMsg, (append_history env st fs "assistant" (pyStrip raw)).1, fs, [])

/-- `MultilingualNLP.answer_in_user_language`. -/
def answer_in_user_language (env : Env) (st : NlpState) (fs : FS)
    (userText : String) : (String × String) × NlpState × FS × List WriteEvent :=
  let srcLang := detect_language env userText
  let englishQuery := if srcLang ≠ "en" then translate_to_en env userText srcLang else userText
  let res := generate_answer env st fs englishQuery
  let finalAnswer := if srcLang ≠ "en" then translate_from_en env res.1 srcLang else res.1
  ((finalAnswer, srcLang), res.2)

/-- Keyword list of the WhatsApp rule in `VoiceAssistant.handle_command`. -/
def waKeywords : List String :=
  ["open whatsapp", "whatsapp", "व्हाट्सअॅप", "व्हाट्सएप", "व्हाट्सॅप", "व्हाट्सअप"]

/-- Keyword list of the YouTube rule. -/
def ytKeywords : List String :=
  ["open youtube", "youtube", "यूट्यूब"]

/-- Keyword list of the time rule. -/
def timeKeywords : List String :=
  ["what\x27s the time", "time", "समय", "वेळ", "कितना बजे", "कितने बजे", "आत्ता वेळ"]

/-- Keyword list of the play-music rule. -/
def musicKeywords : List String :=
  ["play music", "play song", "music", "संगीत", "गाना", "गाणी"]

/-- All keyword lists of `handle_command`, in rule order. -/
def allKeywords : List String :=
  waKeywords ++ ytKeywords ++ timeKeywords ++ musicKeywords

/-- `VoiceAssistant._open_whatsapp`: the reply depends only on whether
`webbrowser.open` raises. -/
def open_whatsapp (env : Env) : String :=
  if env.webFails "https://web.whatsapp.com" then "I couldn\x27t open WhatsApp."
  else "Opening WhatsApp."

/-- `VoiceAssistant._open_youtube`. -/
def open_youtube (env : Env) : String :=
  if env.webFails "https://www.youtube.com" then "I couldn\x27t open YouTube."
  else "Opening YouTube."

/-- `VoiceAssistant._open_website`: synthesize an https scheme when the
candidate has none, then open it. -/
def open_website (env : Env) (url : String) : String :=
  let url2 := if "http://".isPrefixOf url ∨ "https://".isPrefixOf url then url
    else "https://" ++ url
  if env.webFails url2 then "I couldn\x27t open that website."
  else "Opening " ++ url2

/-- `VoiceAssistant._tell_time`. -/
def tell_time (env : Env) (lang : String) : String :=
  if lang = "hi" then "समय है " ++ env.now
  else if lang = "mr" then "सध्याचा वेळ " ++ env.now
  else "The current time is " ++ env.now ++ "."

/-- `VoiceAssistant._play_music`: open the Music folder when it exists,
otherwise open YouTube Music; any raise inside gives the apology. -/
def play_music (env : Env) : String :=
  if env.musicDirExists then
    if env.musicOpenFails then "I couldn\x27t play music right now."
    else "Opening your Music folder."
  else
    if env.webFails "https://music.youtube.com" then "I couldn\x27t play music right now."
    else "Opening YouTube Music."

/-- Python `lang or "en"`: `None` and the empty string are falsy. -/
def pyOrEn (lang : Option String) : String :=
  match lang with
  | none => "en"
  | some l => if l = "" then "en" else l

/-- `VoiceAssistant.handle_command`: case-insensitive keyword matching in
rule order, then the generic URL-token scan; `none` when nothing matches. -/
def handle_command (env : Env) (text : String) (lang : Option String) :
    Option String :=
  if text = "" then none
  else
    let q := pyLower text
    if waKeywords.any (fun kw => strContains q kw) then some (open_whatsapp env)
    else if ytKeywords.any (fun kw => strContains q kw) then some (open_youtube env)
    else if timeKeywords.any (fun kw => strContains q kw) then
      some (tell_time env (pyOrEn lang))
    else if musicKeywords.any (fun kw => strContains q kw) then
      some (play_music env)
    else
      match (pyTokens q).find? (fun tok => strContains tok "." && tok.length > 3) with
      | some tok => some (open_website env tok)
      | none => none

/-- `VoiceAssistant._append_memory`: read `memory.json` (read failure gives
an empty history), append the new record, keep the last 6, write the whole
document back.  The write is not inside any `try`, so its failure raises
out of the function (`Except.error`). -/
def append_memory (env : Env) (fs : FS) (role text : String) :
    Except Unit (FS × WriteEvent) :=
  let hist := if env.memReadOk then fs.mem else []
  let hist2 := pyTail (hist ++ [(⟨role, text, env.ts⟩ : Entry)]) 6
  if env.memWriteOk then .ok ({ fs with mem := hist2 }, (memPath, hist2))
  else .error ()

/-- The fixed reply of `VoiceAssistant.answer` on empty input. -/
def emptyInputReply : String := "माफ करा, मी समजत नाही. कृपया पुन्हा बोलावं."

/-- The general-QA fallback block of `VoiceAssistant.answer`: store the user
turn, delegate to `answer_in_user_language`, store the assistant turn. -/
def answer_fallback (env : Env) (st : NlpState) (fs : FS) (text : String) :
    Except Unit ((String × String) × NlpState × FS × List WriteEvent) :=
  match append_memory env fs "user" text with
  | .error e => .error e
  | .ok res1 =>
    match append_memory env (answer_in_user_language env st res1.1 text).2.2.1
        "assistant" (answer_in_user_language env st res1.1 text).1.1 with
    | .error e => .error e
    | .ok res3 =>
      .ok ((answer_in_user_language env st res1.1 text).1,
        (answer_in_user_language env st res1.1 text).2.1, res3.1,
        res1.2 :: ((answer_in_user_language env st res1.1 text).2.2.2 ++ [res3.2]))

/-- `VoiceAssistant.answer`: empty-input fast path, then command dispatch
(the Python truthiness test `if cmd_result:` sends both `None` and an empty
reply string to the fallback), then the general-QA fallback. -/
def answer (env : Env) (st : NlpState) (fs : FS) (text : String) :
    Except Unit ((String × String) × NlpState × FS × List WriteEvent) :=
  if text = "" then .ok ((emptyInputReply, "hi"), st, fs, [])
  else
    match handle_command env text (some (detect_language env text)) with
    | some cmd =>
      if cmd = "" then answer_fallback env st fs text
      else
        match append_memory env fs "assistant"
            (if detect_language env text ≠ "en" then
              translate_from_en env cmd (detect_language env text) else cmd) with
        | .error e => .error e
        | .ok res =>
          .ok (((if detect_language env text ≠ "en" then
              translate_from_en env cmd (detect_language env text) else cmd),
            detect_language env text), st, res.1, [res.2])
    | none => answer_fallback env st fs text

/-- Iterated `_append_memory`: the sequence of appends a run of turns
performs on the assistant store, stopping at the first raise. -/
def append_memory_run (env : Env) : FS → List (String × String) → Except Unit FS
  | fs, [] => .ok fs
  | fs, p :: rest =>
    match append_memory env fs p.1 p.2 with
    | .error e => .error e
    | .ok res => append_memory_run env res.1 rest

/-- The record `_append_memory` builds from a role and a text. -/
def mkEntry (ts : Nat) (p : String × String) : Entry :=
  ⟨p.1, p.2, ts⟩

/-- The initial document `{"history": []}` that `_ensure_memory_file`
creates for both stores. -/
def fs0 : FS := ⟨[], []⟩

/-- An empty in-memory NLP history. -/
def st0 : NlpState := ⟨[]⟩

/-- A concrete environment: the classifier answers "en", the translation
backends failed to load, the generation backend works and answers " ok ",
both stores read and write fine, no web call raises, the music folder is
absent. -/
def envBase : Env :=
  { classifier := fun _ => .ok "en"
    indicToEn := none
    enToIndic := none
    generator := some (fun _ => .ok " ok ")
    memReadOk := true
    memWriteOk := true
    nlpReadOk := true
    nlpWriteOk := true
    webFails := fun _ => false
    now := "10:00 AM"
    musicDirExists := false
    musicOpenFails := false
    ts := 0 }

/-- `envBase` with both generation backends failed to load. -/
def envNoGen : Env := { envBase with generator := none }

/-- `envBase` where writing `memory.json` fails. -/
def envNoWrite : Env := { envBase with memWriteOk := false }

/-- Seven role/text pairs, one more than the memory limit. -/
def ps7 : List (String × String) :=
  [("user", "a"), ("user", "b"), ("user", "c"), ("user", "d"),
   ("user", "e"), ("user", "f"), ("user", "g")]

/-- Whether an embedded call completed without an uncaught Python
exception. -/
def exceptOk (r : Except Unit α) : Bool :=
  match r with
  | .ok _ => true
  | .error _ => false

instance {ε α : Type} [DecidableEq ε] [DecidableEq α] : DecidableEq (Except ε α) :=
  fun a b =>
    match a, b with
    | .ok x, .ok y =>
      if h : x = y then .isTrue (congrArg Except.ok h)
      else .isFalse (fun hc => h (Except.ok.inj hc))
    | .error x, .error y =>
      if h : x = y then .isTrue (congrArg Except.error h)
      else .isFalse (fun hc => h (Except.error.inj hc))
    | .ok _, .error _ => .isFalse (fun hc => Except.noConfusion hc)
    | .error _, .ok _ => .isFalse (fun hc => Except.noConfusion hc)

/-- The paths of the successful writes of a turn, in order. -/
def tracePaths (r : Except Unit ((String × String) × NlpState × FS × List WriteEvent)) :
    List String :=
  match r with
  | .ok res => res.2.2.2.map Prod.fst
  | .error _ => []

/-- The result of `answer envBase st0 fs0 "youtube"`: the command branch
replies in English and appends one assistant turn to `memory.json`. -/
def resYt : (String × String) × NlpState × FS × List WriteEvent :=
  (("Opening YouTube.", "en"), st0,
    ⟨[⟨"assistant", "Opening YouTube.", 0⟩], []⟩,
    [(memPath, [⟨"assistant", "Opening YouTube.", 0⟩])])

/-! Helper lemmas about `pyTail` (the Python slice `l[-k:]`). -/

theorem pyTail_length_le (l : List α) (k : Nat) : (pyTail l k).length ≤ k := by
  simp only [pyTail, List.length_drop]
  omega

theorem pyTail_eq_self {l : List α} {k : Nat} (h : l.length ≤ k) :
    pyTail l k = l := by
  simp only [pyTail]
  have hz : l.length - k = 0 := by omega
  simp [hz]

theorem pyTail_pyTail_append (l ys : List α) (k : Nat) :
    pyTail (pyTail l k ++ ys) k = pyTail (l ++ ys) k := by
  simp only [pyTail, List.length_append, List.length_drop]
  rw [List.drop_append_eq_append_drop, List.drop_append_eq_append_drop,
    List.drop_drop, List.length_drop]
  congr 1
  · congr 1
    omega
  · congr 1
    omega

/-! Helper lemmas about whitespace, stripping and the Devanagari test. -/

theorem isDevanagari_not_space {c : Char} (h : isDevanagari c = true) :
    isPySpace c = false := by
  simp only [isDevanagari, decide_eq_true_eq] at h
  simp only [isPySpace, pySpaceCodes, Bool.or_eq_false_iff, decide_eq_false_iff_not,
    List.mem_cons, List.not_mem_nil, or_false, not_and, not_le, not_or]
  omega

theorem dropWhile_eq_self_of {p : Char → Bool} {l : List Char}
    (h : ∀ c ∈ l, p c = false) : l.dropWhile p = l := by
  cases l with
  | nil => rfl
  | cons a t => simp [List.dropWhile_cons, h a (List.mem_cons_self a t)]

theorem stripList_eq_self {l : List Char} (h : ∀ c ∈ l, isPySpace c = false) :
    stripList l = l := by
  unfold stripList
  rw [dropWhile_eq_self_of h, dropWhile_eq_self_of, List.reverse_reverse]
  intro c hc
  exact h c (List.mem_reverse.mp hc)

/-- C7: for every input text and every classifier behaviour (any raw code,
or failure), `detect_language` returns one of "en", "hi", "mr" — never an
out-of-set code. -/
theorem detect_language_closed (env : Env) (text : String) :
    detect_language env text = "en" ∨ detect_language env text = "hi" ∨
      detect_language env text = "mr" := by
  unfold detect_language
  split
  · exact Or.inl rfl
  · split
    · split
      · rename_i h
        exact h
      · split
        · exact Or.inr (Or.inl rfl)
        · split
          · exact Or.inr (Or.inr rfl)
          · split
            · exact Or.inr (Or.inl rfl)
            · exact Or.inl rfl
    · split
      · exact Or.inr (Or.inl rfl)
      · exact Or.inl rfl

/-- C2 (amended): for every non-empty text all of whose codepoints lie in
the Devanagari range, and every classifier outcome other than the exact
code "en" (failure included), `detect_language` returns "hi" or "mr". -/
theorem detect_language_devanagari (env : Env) (text : String)
    (hne : text ≠ "")
    (hdev : ∀ c ∈ text.data, isDevanagari c = true)
    (hcl : ∀ code, env.classifier text = .ok code → code ≠ "en") :
    detect_language env text = "hi" ∨ detect_language env text = "mr" := by
  have hdata : text.data ≠ [] := by
    intro h
    apply hne
    apply String.ext
    simpa using h
  have hspace : ∀ c ∈ text.data, isPySpace c = false :=
    fun c hc => isDevanagari_not_space (hdev c hc)
  have hstrip : pyStrip text ≠ "" := by
    simp only [pyStrip]
    intro h
    apply hdata
    have h2 := congrArg String.data h
    simpa [stripList_eq_self hspace] using h2
  have hdev2 : hasDevanagari text = true := by
    cases hl : text.data with
    | nil => exact absurd hl hdata
    | cons a t =>
      have ha := hdev a (by rw [hl]; exact List.mem_cons_self a t)
      simp [hasDevanagari, hl, List.any_cons, ha]
  unfold detect_language
  rw [if_neg (by push_neg; exact ⟨hne, hstrip⟩)]
  split
  · rename_i code hc
    have hcode := hcl code hc
    by_cases h1 : code = "en" ∨ code = "hi" ∨ code = "mr"
    · rw [if_pos h1]
      rcases h1 with h | h | h
      · exact absurd h hcode
      · exact Or.inl h
      · exact Or.inr h
    · rw [if_neg h1]
      by_cases h2 : "hi".isPrefixOf code
      · simp [h2]
      · by_cases h3 : "mr".isPrefixOf code
        · simp [h2, h3]
        · simp [h2, h3, hdev2]
  · simp [hdev2]

/-- C2 counterexample: the empty string is (vacuously) all-Devanagari yet
detected as "en", and on the single Devanagari letter "क" a classifier
that outputs the raw code "en" makes `detect_language` return "en". -/
theorem detect_language_devanagari_ctex :
    (∀ c ∈ ("क" : String).data, isDevanagari c = true) ∧
    (∀ c ∈ ("" : String).data, isDevanagari c = true) ∧
    detect_language envBase "क" = "en" ∧
    detect_language envBase "" = "en" := by
  refine ⟨by decide, by decide, ?_, ?_⟩ <;> decide

/-- C2 witness: on "क" with a failing classifier the detector answers
"hi". -/
theorem detect_language_devanagari_witness :
    detect_language { envBase with classifier := fun _ => .error () } "क" = "hi" ∨
    detect_language { envBase with classifier := fun _ => .error () } "क" = "mr" :=
  detect_language_devanagari _ "क" (by decide) (by decide)
    (fun code h => by simp at h)

/-- C1 (amended): when both generation backends failed to load,
`generate_answer` returns the exact fixed string "I\x27m unable to load the
language model right now. Please try again later." for every prompt,
leaving the in-memory history, both stores and the write trace untouched
(no backend call is attempted). -/
theorem generate_answer_degraded (env : Env) (st : NlpState) (fs : FS)
    (prompt : String) (h : env.generator = none) :
    generate_answer env st fs prompt = (noModelMsg, st, fs, []) := by
  simp [generate_answer, h]

/-- C1 counterexample: in the degraded state the reply is not the claimed
exact string "I\x27m unable to load the language model right now." — the
code appends the sentence " Please try again later.". -/
theorem generate_answer_degraded_ctex :
    (generate_answer envNoGen st0 fs0 "hello").1 = noModelMsg ∧
    (generate_answer envNoGen st0 fs0 "hello").1 ≠
      "I\x27m unable to load the language model right now." := by
  constructor <;> decide

/-- C1 witness: the degraded equation evaluated at the prompt "namaste". -/
theorem generate_answer_degraded_witness :
    envNoGen.generator = none ∧
    generate_answer envNoGen st0 fs0 "namaste" = (noModelMsg, st0, fs0, []) :=
  ⟨rfl, generate_answer_degraded envNoGen st0 fs0 "namaste" rfl⟩

/-- C6: when both translation backends are unavailable, translating to
English and back is the identity on every text and language; and for the
language "en" each direction is the identity for every environment. -/
theorem translate_passthrough_roundtrip (env : Env) (x L : String)
    (h1 : env.indicToEn = none) (h2 : env.enToIndic = none) :
    translate_from_en env (translate_to_en env x L) L = x ∧
    translate_to_en env x "en" = x ∧
    translate_from_en env x "en" = x := by
  refine ⟨?_, by simp [translate_to_en], by simp [translate_from_en]⟩
  by_cases hL : L = "en" <;> simp [translate_to_en, translate_from_en, hL, h1, h2]

/-- C6 witness: the round trip on the Devanagari text "नमस्ते" through
Marathi under the backend-free environment. -/
theorem translate_passthrough_roundtrip_witness :
    envBase.indicToEn = none ∧ envBase.enToIndic = none ∧
    (translate_from_en envBase (translate_to_en envBase "नमस्ते" "mr") "mr" = "नमस्ते" ∧
     translate_to_en envBase "नमस्ते" "en" = "नमस्ते" ∧
     translate_from_en envBase "नमस्ते" "en" = "नमस्ते") :=
  ⟨rfl, rfl, translate_passthrough_roundtrip envBase "नमस्ते" "mr" rfl rfl⟩

theorem append_memory_run_ok (env : Env) (hr : env.memReadOk = true)
    (hw : env.memWriteOk = true) :
    ∀ (ps : List (String × String)) (fs : FS), fs.mem.length ≤ 6 →
      append_memory_run env fs ps =
        .ok ⟨pyTail (fs.mem ++ ps.map (mkEntry env.ts)) 6, fs.nlp⟩ := by
  intro ps
  induction ps with
  | nil =>
    intro fs h
    simp [append_memory_run, pyTail_eq_self h]
  | cons p rest ih =>
    intro fs h
    simp only [append_memory_run, append_memory, hr, hw, if_true, List.map_cons]
    rw [ih _ (pyTail_length_le _ _)]
    rw [pyTail_pyTail_append]
    simp [mkEntry, List.append_assoc]

/-- C4: starting from the freshly initialized store, appending any sequence
of more than six turns (all reads and writes succeeding) persists exactly
the last six appended turns in their original order — the history length
equals the limit, so it never exceeds it. -/
theorem append_memory_fifo (env : Env) (ps : List (String × String))
    (hr : env.memReadOk = true) (hw : env.memWriteOk = true)
    (hn : 6 < ps.length) :
    append_memory_run env fs0 ps =
      .ok ⟨(ps.map (mkEntry env.ts)).drop (ps.length - 6), []⟩ ∧
    ((ps.map (mkEntry env.ts)).drop (ps.length - 6)).length = 6 := by
  constructor
  · have h := append_memory_run_ok env hr hw ps fs0 (by simp [fs0])
    simpa [fs0, pyTail] using h
  · simp only [List.length_drop, List.length_map]
    omega

/-- C4 witness: seven appends leave exactly the last six entries. -/
theorem append_memory_fifo_witness :
    (6 < ps7.length) ∧
    (append_memory_run envBase fs0 ps7 =
      .ok ⟨(ps7.map (mkEntry envBase.ts)).drop (ps7.length - 6), []⟩ ∧
     ((ps7.map (mkEntry envBase.ts)).drop (ps7.length - 6)).length = 6) :=
  ⟨by decide, append_memory_fifo envBase ps7 rfl rfl (by decide)⟩

theorem append_memory_notError (env : Env) (fs : FS) (role text : String)
    (h : env.memWriteOk = true) (e : Unit) :
    append_memory env fs role text ≠ .error e := by
  simp [append_memory, h]

theorem answer_fallback_ok (env : Env) (st : NlpState) (fs : FS) (text : String)
    (h : env.memWriteOk = true) :
    exceptOk (answer_fallback env st fs text) = true := by
  cases h1 : append_memory env fs "user" text with
  | error e => exact absurd h1 (append_memory_notError env fs "user" text h e)
  | ok res1 =>
    cases h3 : append_memory env (answer_in_user_language env st res1.1 text).2.2.1
        "assistant" (answer_in_user_language env st res1.1 text).1.1 with
    | error e => exact absurd h3 (append_memory_notError env _ "assistant" _ h e)
    | ok res3 => simp [answer_fallback, h1, h3, exceptOk]

/-- C5 (amended): whenever the write of the assistant's memory store
succeeds, `answer` completes without raising for every input text and
every outcome of detection, commands, translation, generation and store
reads; a failed write of `memory.json`, by contrast, propagates (see the
counterexample). -/
theorem answer_never_raises (env : Env) (st : NlpState) (fs : FS) (text : String)
    (h : env.memWriteOk = true) :
    exceptOk (answer env st fs text) = true := by
  simp only [answer]
  split
  · rfl
  · split
    · rename_i cmd hcmd
      split
      · exact answer_fallback_ok env st fs text h
      · cases hres : append_memory env fs "assistant"
            (if detect_language env text ≠ "en" then
              translate_from_en env cmd (detect_language env text) else cmd) with
        | error e => exact absurd hres (append_memory_notError env fs "assistant" _ h e)
        | ok res => rfl
    · exact answer_fallback_ok env st fs text h

/-- C5 counterexample: when writing `memory.json` fails, the turn on
"hello" raises out of `answer` instead of degrading to a reply. -/
theorem answer_raises_ctex :
    answer envNoWrite st0 fs0 "hello" = .error () := by decide

/-- C5 witness: a turn on "hello" under the working store completes. -/
theorem answer_never_raises_witness :
    envBase.memWriteOk = true ∧ exceptOk (answer envBase st0 fs0 "hello") = true :=
  ⟨rfl, answer_never_raises envBase st0 fs0 "hello" rfl⟩

theorem append_memory_frame {env : Env} {fs : FS} {role text : String}
    {res : FS × WriteEvent} (h : append_memory env fs role text = .ok res) :
    res.2.1 = memPath ∧ res.2.2.length ≤ 6 := by
  simp only [append_memory] at h
  split at h
  · cases h
    exact ⟨rfl, pyTail_length_le _ _⟩
  · cases h

theorem append_history_frame {env : Env} {st : NlpState} {fs : FS}
    {role text : String} {res : FS × WriteEvent}
    (h : (append_history env st fs role text).2 = .ok res) :
    res.2.1 = nlpPath ∧ res.2.2.length ≤ 6 := by
  simp only [append_history] at h
  split at h
  · cases h
    exact ⟨rfl, pyTail_length_le _ _⟩
  · cases h

theorem generate_answer_frame (env : Env) (st : NlpState) (fs : FS)
    (prompt : String) :
    ∀ ev ∈ (generate_answer env st fs prompt).2.2.2,
      ev.1 = nlpPath ∧ ev.2.length ≤ 6 := by
  intro ev hev
  unfold generate_answer at hev
  split at hev
  · simp at hev
  · split at hev
    · simp at hev
    · split at hev
      · rename_i res heq
        simp only [List.mem_singleton] at hev
        subst hev
        exact append_history_frame heq
      · simp at hev

theorem answer_in_user_language_frame (env : Env) (st : NlpState) (fs : FS)
    (t : String) :
    ∀ ev ∈ (answer_in_user_language env st fs t).2.2.2,
      ev.1 = nlpPath ∧ ev.2.length ≤ 6 := by
  intro ev hev
  apply generate_answer_frame env st fs _ ev
  simpa [answer_in_user_language] using hev

theorem answer_fallback_frame {env : Env} {st : NlpState} {fs : FS}
    {text : String} {res : (String × String) × NlpState × FS × List WriteEvent}
    (h : answer_fallback env st fs text = .ok res) :
    ∀ ev ∈ res.2.2.2, (ev.1 = memPath ∨ ev.1 = nlpPath) ∧ ev.2.length ≤ 6 := by
  unfold answer_fallback at h
  split at h
  · cases h
  · rename_i res1 h1
    split at h
    · cases h
    · rename_i res3 h3
      cases h
      intro ev hev
      simp only [List.mem_cons, List.mem_append, List.mem_singleton,
        List.not_mem_nil, or_false] at hev
      rcases hev with rfl | hev | rfl
      · exact ⟨Or.inl (append_memory_frame h1).1, (append_memory_frame h1).2⟩
      · have h2 := answer_in_user_language_frame env st res1.1 text ev hev
        exact ⟨Or.inr h2.1, h2.2⟩
      · exact ⟨Or.inl (append_memory_frame h3).1, (append_memory_frame h3).2⟩

/-- C3 (amended): every persisted write a completed turn performs targets
one of exactly two JSON documents — `memory.json` (assistant store) or
`nlp_memory.json` (NLP store) — each written wholesale with a `history`
sequence of role/text/timestamp records capped at the limit 6; no
operation writes to any other persistent store. -/
theorem answer_writes_frame (env : Env) (st : NlpState) (fs : FS) (text : String)
    (res : (String × String) × NlpState × FS × List WriteEvent)
    (h : answer env st fs text = .ok res) :
    ∀ ev ∈ res.2.2.2, (ev.1 = memPath ∨ ev.1 = nlpPath) ∧ ev.2.length ≤ 6 := by
  unfold answer at h
  split at h
  · cases h
    intro ev hev
    simp at hev
  · split at h
    · split at h
      · exact answer_fallback_frame h
      · split at h
        · cases h
        · rename_i res2 h2
          cases h
          intro ev hev
          simp only [List.mem_singleton] at hev
          subst hev
          exact ⟨Or.inl (append_memory_frame h2).1, (append_memory_frame h2).2⟩
    · exact answer_fallback_frame h

/-- C3 counterexample: one ordinary generated turn writes two distinct
JSON documents — `memory.json` twice (user turn and reply) and
`nlp_memory.json` once (the generator's own history) — so the core's
persistence is not a single JSON document. -/
theorem answer_writes_two_stores_ctex :
    tracePaths (answer envBase st0 fs0 "hello") = [memPath, nlpPath, memPath] ∧
    memPath ≠ nlpPath := by
  constructor <;> decide

/-- C3 witness: the command turn on "youtube" writes only the two known
stores, with a capped history. -/
theorem answer_writes_frame_witness :
    answer envBase st0 fs0 "youtube" = .ok resYt ∧
    (∀ ev ∈ resYt.2.2.2, (ev.1 = memPath ∨ ev.1 = nlpPath) ∧ ev.2.length ≤ 6) :=
  ⟨by decide, answer_writes_frame envBase st0 fs0 "youtube" resYt (by decide)⟩

/-- C8: on the empty input, `answer` returns the fixed multilingual
apology reply, and the result does not depend on the environment at all —
no detection, translation, generation or persistence outcome can affect
it. -/
theorem answer_empty_fast_path (env env2 : Env) (st : NlpState) (fs : FS) :
    (∃ rest, answer env st fs "" = .ok ((emptyInputReply, "hi"), rest)) ∧
    answer env st fs "" = answer env2 st fs "" := by
  constructor
  · exact ⟨(st, fs, []), by simp [answer]⟩
  · simp [answer]

/-- C10: on the empty-input fast path, `answer` performs no write, leaves
the in-memory history and both stores unchanged, and returns the language
code "hi". -/
theorem answer_empty_frame (env : Env) (st : NlpState) (fs : FS) :
    answer env st fs "" = .ok ((emptyInputReply, "hi"), st, fs, []) := by
  simp [answer]

/-- C9: whenever no keyword of any rule occurs in the lowercased text and
no whitespace-delimited token of it contains a "." while being longer than
3 characters, `handle_command` returns `none` — the signal to fall through
to generation; "tell me a story" is such an input (see the witness). -/
theorem handle_command_no_match (env : Env) (text : String) (lang : Option String)
    (hkw : ∀ kw ∈ allKeywords, strContains (pyLower text) kw = false)
    (hurl : ∀ tok ∈ pyTokens (pyLower text),
      ¬(strContains tok "." = true ∧ 3 < tok.length)) :
    handle_command env text lang = none := by
  have ha : waKeywords.any (fun kw => strContains (pyLower text) kw) = false := by
    rw [List.any_eq_false]
    intro kw hm
    simp [hkw kw (by simp [allKeywords, hm])]
  have hb : ytKeywords.any (fun kw => strContains (pyLower text) kw) = false := by
    rw [List.any_eq_false]
    intro kw hm
    simp [hkw kw (by simp [allKeywords, hm])]
  have hc2 : timeKeywords.any (fun kw => strContains (pyLower text) kw) = false := by
    rw [List.any_eq_false]
    intro kw hm
    simp [hkw kw (by simp [allKeywords, hm])]
  have hd : musicKeywords.any (fun kw => strContains (pyLower text) kw) = false := by
    rw [List.any_eq_false]
    intro kw hm
    simp [hkw kw (by simp [allKeywords, hm])]
  have hfind : (pyTokens (pyLower text)).find?
      (fun tok => strContains tok "." && tok.length > 3) = none := by
    rw [List.find?_eq_none]
    intro tok hm
    have h2 := hurl tok hm
    simp only [Bool.and_eq_true, decide_eq_true_eq]
    intro hand
    exact h2 ⟨hand.1, hand.2⟩
  simp only [handle_command, ha, hb, hc2, hd, hfind, Bool.false_eq_true,
    if_false, ite_self]

/-- C9 witness: "tell me a story" matches no rule and yields no command. -/
theorem handle_command_no_match_witness :
    handle_command envBase "tell me a story" (some "en") = none :=
  handle_command_no_match envBase "tell me a story" (some "en")
    (by decide) (by decide)

end BestBuddy
